import Mathlib

/-!
Shallow embedding of the Build or Boom Card Creator (src/script.js) and
verification of its specification claims.

Coordinates are modelled as rationals (the code manipulates JavaScript
numbers with linear arithmetic only; all operations involved are exact on
the values the code produces).  `Math.round` in JavaScript rounds half
toward positive infinity, which is `⌊x + 1/2⌋`.
-/

namespace BuildOrBoom

/-- CONFIG.GRID_SIZE. -/
def GRID_SIZE : ℤ := 20

/-- CONFIG.DRAG_THRESHOLD. -/
def DRAG_THRESHOLD : ℚ := 5

/-- JavaScript `Math.round`: rounds half toward positive infinity. -/
def jsRound (x : ℚ) : ℤ := ⌊x + 1/2⌋

/-- `Utils.snapToGrid(value) = Math.round(value / CONFIG.GRID_SIZE) * CONFIG.GRID_SIZE`. -/
def snapToGrid (value : ℚ) : ℤ := jsRound (value / (GRID_SIZE : ℚ)) * GRID_SIZE

-- Basic facts about jsRound / snapToGrid --------------------------------------

lemma jsRound_le (x : ℚ) : (jsRound x : ℚ) ≤ x + 1/2 := by
  unfold jsRound
  exact Int.floor_le (x + 1/2)

lemma lt_jsRound (x : ℚ) : x - 1/2 < (jsRound x : ℚ) := by
  have h : x + 1/2 < (jsRound x : ℚ) + 1 := by
    unfold jsRound
    exact Int.lt_floor_add_one (x + 1/2)
  linarith

lemma jsRound_intCast (n : ℤ) : jsRound (n : ℚ) = n := by
  unfold jsRound
  have h0 : (0 : ℚ) ≤ 1/2 := by norm_num
  have h1 : (1 : ℚ)/2 < 1 := by norm_num
  rw [add_comm]
  rw [Int.floor_add_int]
  norm_num

lemma snapToGrid_dvd (v : ℚ) : GRID_SIZE ∣ snapToGrid v := ⟨jsRound (v / 20), by
  simp [snapToGrid, GRID_SIZE, mul_comm]⟩

lemma abs_snapToGrid_sub_le (v : ℚ) : |(snapToGrid v : ℚ) - v| ≤ 10 := by
  have h1 : (jsRound (v / 20) : ℚ) ≤ v / 20 + 1/2 := jsRound_le _
  have h2 : v / 20 - 1/2 < (jsRound (v / 20) : ℚ) := lt_jsRound _
  have hs : (snapToGrid v : ℚ) = (jsRound (v / 20) : ℚ) * 20 := by
    simp [snapToGrid, GRID_SIZE]
  rw [abs_le]
  constructor <;> nlinarith

lemma snapToGrid_intCast_mul (k : ℤ) : snapToGrid ((k : ℚ) * 20) = k * 20 := by
  have : ((k : ℚ) * 20) / 20 = (k : ℚ) := by ring
  simp [snapToGrid, GRID_SIZE, this, jsRound_intCast]

lemma snapToGrid_idem (v : ℚ) : snapToGrid ((snapToGrid v : ℤ) : ℚ) = snapToGrid v := by
  have : snapToGrid v = jsRound (v / 20) * 20 := by simp [snapToGrid, GRID_SIZE]
  rw [this]
  push_cast
  exact snapToGrid_intCast_mul _

lemma snapToGrid_nonneg (v : ℚ) (hv : 0 ≤ v) : 0 ≤ snapToGrid v := by
  have h2 : v / 20 - 1/2 < (jsRound (v / 20) : ℚ) := lt_jsRound _
  have hd : (0 : ℚ) ≤ v / 20 := by positivity
  have hlt : (-1 : ℤ) < jsRound (v / 20) := by exact_mod_cast (by linarith : (-1 : ℚ) < (jsRound (v / 20) : ℚ))
  have hj : 0 ≤ jsRound (v / 20) := by omega
  have : snapToGrid v = jsRound (v / 20) * 20 := by simp [snapToGrid, GRID_SIZE]
  rw [this]
  positivity

lemma snapToGrid_le_add_ten (v : ℚ) : (snapToGrid v : ℚ) ≤ v + 10 := by
  have h := abs_snapToGrid_sub_le v
  rw [abs_le] at h
  linarith [h.2]

-- Data model ------------------------------------------------------------------

/-- A shape's pixel dimensions (CONFIG.SHAPE_SIZES values). -/
structure ShapeSize where
  width : ℤ
  height : ℤ
  deriving DecidableEq, Repr

/-- CONFIG.SHAPE_SIZES: the table of known shape types. -/
def SHAPE_SIZES (shapeType : String) : Option ShapeSize :=
  if shapeType = "square" then some ⟨80, 80⟩
  else if shapeType = "triangle" then some ⟨80, 80⟩
  else if shapeType = "half-moon" then some ⟨80, 80⟩
  else if shapeType = "cone" then some ⟨80, 40⟩
  else if shapeType = "2x4" then some ⟨240, 80⟩
  else if shapeType = "arch" then some ⟨240, 80⟩
  else if shapeType = "beam" then some ⟨240, 80⟩
  else if shapeType = "foreman" then some ⟨160, 160⟩
  else if shapeType = "barrel-cylinder" then some ⟨80, 160⟩
  else if shapeType = "barrel-circle" then some ⟨80, 80⟩
  else none

/-- `CONFIG.SHAPE_SIZES[shapeType] || \x7b width: 80, height: 80 \x7d`. -/
def shapeSizeOrDefault (shapeType : String) : ShapeSize :=
  (SHAPE_SIZES shapeType).getD ⟨80, 80⟩

/-- SHAPE_NAMES: shape type to supply-list display name. -/
def SHAPE_NAMES (shapeType : String) : Option String :=
  if shapeType = "2x4" then some "2x4"
  else if shapeType = "triangle" then some "Triangle"
  else if shapeType = "arch" then some "Arch"
  else if shapeType = "barrel-cylinder" then some "Barrel"
  else if shapeType = "barrel-circle" then some "Barrel"
  else if shapeType = "half-moon" then some "Half Moon"
  else if shapeType = "cone" then some "Cone"
  else if shapeType = "beam" then some "Beam"
  else if shapeType = "square" then some "Square"
  else if shapeType = "foreman" then some "The Foreman"
  else none

/-- `SHAPE_NAMES[shapeType] || 'Unknown'` (SupplyListManager.countShapes). -/
def displayName (shapeType : String) : String :=
  (SHAPE_NAMES shapeType).getD "Unknown"

/-- A palette item in the DOM: its `data-shape` attribute and, when present,
the inner HTML of its `.shape-svg` child. -/
structure PaletteItem where
  dataShape : String
  shapeSvg : Option String
  deriving DecidableEq, Repr

/-- The DOM state the shape factory queries: the list of palette items. -/
structure DomEnv where
  palette : List PaletteItem
  deriving DecidableEq, Repr

/-- `document.querySelector('[data-shape="..."]')`: first matching palette item. -/
def queryPalette (env : DomEnv) (shapeType : String) : Option PaletteItem :=
  env.palette.find? (fun p => p.dataShape = shapeType)

/-- The result of ShapeFactory.getDefinition. -/
structure ShapeDef where
  svg : String
  width : ℤ
  height : ℤ
  deriving DecidableEq, Repr

/-- ShapeFactory.getDefinition: returns null when the palette item or its
`.shape-svg` child is missing; otherwise the svg contents with the size table
entry (defaulting to 80x80). -/
def getDefinition (env : DomEnv) (shapeType : String) : Option ShapeDef :=
  match queryPalette env shapeType with
  | none => none
  | some item =>
    match item.shapeSvg with
    | none => none
    | some svg =>
      let sz := shapeSizeOrDefault shapeType
      some ⟨svg, sz.width, sz.height⟩

/-- The `svg.style.transform` value a shape's SVG can carry.  The code writes
either nothing, `rotate(Ndeg)` (from rotate), or `rotate(R) scale(sx, sy)`
(from flip); the rotation component is modelled by its numeric degree value. -/
inductive Transform where
  | empty : Transform
  | rot (deg : ℤ) : Transform
  | rotScale (deg : ℤ) (sx sy : ℚ) : Transform
  deriving DecidableEq, Repr

/-- The rotation component flip parses out of the transform
(`rotateMatch ? rotateMatch[1] : '0deg'`). -/
def rotationOf : Transform → ℤ
  | .empty => 0
  | .rot d => d
  | .rotScale d _ _ => d

/-- The scale component flip parses out of the transform:
`scaleX = scaleValues[0] || 1; scaleY = scaleValues[1] || scaleX`
(a falsy component defaults as in JavaScript). -/
def scaleOf : Transform → ℚ × ℚ
  | .rotScale _ sx sy =>
    let sx' := if sx = 0 then 1 else sx
    (sx', if sy = 0 then sx' else sy)
  | _ => (1, 1)

/-- A placed shape (`.dropped-shape` element): dataset attributes, inline
position style, and its SVG child's transform. -/
structure Shape where
  id : String
  shapeType : String
  left : ℤ
  top : ℤ
  rotation : Option ℤ
  flippedH : Option Bool
  flippedV : Option Bool
  transform : Transform
  svgContent : String
  deriving DecidableEq, Repr

-- Shape creation ---------------------------------------------------------------

/-- ShapeFactory.create: clamp the requested position into the container
(x into [0, clientWidth - width], y to ≥ 0), then snap both to the grid.
Returns null when getDefinition does.  (createUniqueSvg only rewrites SVG ids;
the svg content is carried through unchanged in the model.) -/
def ShapeFactory_create (env : DomEnv) (shapeType : String) (x y : ℚ)
    (containerWidth : ℤ) (newId : String) : Option Shape :=
  match getDefinition env shapeType with
  | none => none
  | some d =>
    let rawBoundedX := max 0 (min x ((containerWidth : ℚ) - (d.width : ℚ)))
    let rawBoundedY := max 0 y
    some { id := newId
           shapeType := shapeType
           left := snapToGrid rawBoundedX
           top := snapToGrid rawBoundedY
           rotation := none
           flippedH := none
           flippedV := none
           transform := .empty
           svgContent := d.svg }

/-- DragDropManager.createShape: on a null factory result nothing is appended
and no event fires (only a console.log); otherwise the shape is appended and
one 'shapeAdded' event is emitted. -/
def createShapeOp (env : DomEnv) (st : List Shape) (shapeType : String)
    (x y : ℚ) (containerWidth : ℤ) (newId : String) : List Shape × List String :=
  match ShapeFactory_create env shapeType x y containerWidth newId with
  | none => (st, [])
  | some sh => (st ++ [sh], ["shapeAdded"])

-- Tap-to-add --------------------------------------------------------------------

/-- DragDropManager.handleTapToAdd / handleTapToAddTouch: place a shape at the
center of the build area plus a random offset `(Math.random() - 0.5) * 40` per
axis (a value in [-20, 20)), snapped to the grid, then create it.  The random
offsets are passed explicitly.  A missing build area or empty shape type is a
no-op before any work happens. -/
def handleTapToAdd (env : DomEnv) (st : List Shape) (buildAreaPresent : Bool)
    (shapeType : String) (areaWidth areaHeight : ℚ) (containerWidth : ℤ)
    (offX offY : ℚ) (newId : String) : List Shape × List String :=
  if ¬ buildAreaPresent ∨ shapeType = "" then (st, [])
  else
    let size := shapeSizeOrDefault shapeType
    let centerX := areaWidth / 2 - (size.width : ℚ) / 2
    let centerY := areaHeight / 2 - (size.height : ℚ) / 2
    let finalX := snapToGrid (centerX + offX)
    let finalY := snapToGrid (centerY + offY)
    createShapeOp env st shapeType (finalX : ℚ) (finalY : ℚ) containerWidth newId

-- Touch drag vs tap --------------------------------------------------------------

/-- A client coordinate pair from a touch event. -/
structure TouchPoint where
  x : ℚ
  y : ℚ
  deriving DecidableEq, Repr

/-- One DragDropManager.handleTouchMove step on the isDragging flag: set it
when the move exceeds DRAG_THRESHOLD on either axis, never clear it. -/
def touchMoveStep (start : TouchPoint) (dragging : Bool) (t : TouchPoint) : Bool :=
  if |t.x - start.x| > DRAG_THRESHOLD ∨ |t.y - start.y| > DRAG_THRESHOLD then true
  else dragging

/-- The isDragging flag after a touchstart at `start` followed by the given
touchmoves (it starts false at touchstart). -/
def touchIsDrag (start : TouchPoint) (moves : List TouchPoint) : Bool :=
  moves.foldl (touchMoveStep start) false

/-- The build area's bounding client rect. -/
structure Rect where
  left : ℚ
  top : ℚ
  right : ℚ
  bottom : ℚ
  deriving DecidableEq, Repr

/-- DragDropManager.isOverBuildArea. -/
def isOverBuildArea (t : TouchPoint) (r : Rect) : Bool :=
  t.x ≥ r.left ∧ t.x ≤ r.right ∧ t.y ≥ r.top ∧ t.y ≤ r.bottom

/-- What DragDropManager.handleTouchEnd decides to do. -/
inductive TouchEndOutcome where
  | dropAt (shapeType : String) (x y : ℤ) : TouchEndOutcome
  | tapToAdd (shapeType : String) : TouchEndOutcome
  | noop : TouchEndOutcome
  deriving DecidableEq, Repr

/-- DragDropManager.handleTouchEnd: a drag over the build area drops the shape
at the snapped touch point (centered on the shape); a drag elsewhere does
nothing; a non-drag is handled as tap-to-add. -/
def handleTouchEnd (shapeType : String) (start : TouchPoint)
    (moves : List TouchPoint) (endTouch : TouchPoint) (rect : Rect) :
    TouchEndOutcome :=
  if touchIsDrag start moves then
    if isOverBuildArea endTouch rect then
      let size := shapeSizeOrDefault shapeType
      .dropAt shapeType
        (snapToGrid (endTouch.x - rect.left - (size.width : ℚ) / 2))
        (snapToGrid (endTouch.y - rect.top - (size.height : ℚ) / 2))
    else .noop
  else .tapToAdd shapeType

-- Moving a placed shape ----------------------------------------------------------

/-- ShapeController.handleMove: below the drag threshold nothing changes
(returns none); past it the new position is snapped to the grid first, then
the x coordinate is clamped into [0, clientWidth - width] and the y coordinate
to ≥ 0. -/
def handleMove (initialX initialY : ℤ) (dx dy : ℚ) (containerWidth : ℤ)
    (size : ShapeSize) : Option (ℤ × ℤ) :=
  if |dx| > DRAG_THRESHOLD ∨ |dy| > DRAG_THRESHOLD then
    let snappedX := snapToGrid ((initialX : ℚ) + dx)
    let snappedY := snapToGrid ((initialY : ℚ) + dy)
    some (max 0 (min snappedX (containerWidth - size.width)), max 0 snappedY)
  else none

-- Rotate and flip ----------------------------------------------------------------

/-- ShapeController.rotate (and the identical ContextMenuManager controller):
`rotation = (parseInt(dataset.rotation || '0') + 90) % 360`, stored back in the
dataset, with the SVG transform set to that pure rotation. -/
def rotateShape (s : Shape) : Shape :=
  let r := ((s.rotation.getD 0) + 90) % 360
  { s with rotation := some r, transform := .rot r }

/-- ShapeController.flip (and the identical ContextMenuManager controller):
parse the rotation and scale out of the current transform, negate the chosen
axis, record the flipped flag in the dataset, and write back
`rotate(R) scale(sx, sy)`. -/
def flipShape (direction : String) (s : Shape) : Shape :=
  let d := rotationOf s.transform
  let p := scaleOf s.transform
  if direction = "horizontal" then
    let sx := -p.1
    { s with flippedH := some (decide (sx < 0)), transform := .rotScale d sx p.2 }
  else if direction = "vertical" then
    let sy := -p.2
    { s with flippedV := some (decide (sy < 0)), transform := .rotScale d p.1 sy }
  else
    { s with transform := .rotScale d p.1 p.2 }

-- State-level operations (the build area's list of .dropped-shape elements) ------

/-- Rotate the shape with the given id (the context menu acts on one shape). -/
def rotateOp (st : List Shape) (targetId : String) : List Shape :=
  st.map (fun s => if s.id = targetId then rotateShape s else s)

/-- Flip the shape with the given id. -/
def flipOp (st : List Shape) (targetId : String) (direction : String) : List Shape :=
  st.map (fun s => if s.id = targetId then flipShape direction s else s)

/-- Delete (context menu / Delete key): `element.remove()` of one shape. -/
def deleteOp (st : List Shape) (targetId : String) : List Shape :=
  st.filter (fun s => ¬ s.id = targetId)

/-- Clear all (Escape / clear button): every .dropped-shape is removed. -/
def clearAllOp (_st : List Shape) : List Shape := []

/-- A place action: DragDropManager.createShape appends at most one shape. -/
def placeOp (env : DomEnv) (st : List Shape) (shapeType : String) (x y : ℚ)
    (containerWidth : ℤ) (newId : String) : List Shape :=
  (createShapeOp env st shapeType x y containerWidth newId).1

-- Supply list --------------------------------------------------------------------

/-- SupplyListManager.countShapes: build the counts object over the placed
shapes; the object is modelled as its lookup function (0 for absent keys). -/
def countShapes (shapes : List Shape) : String → ℕ :=
  shapes.foldl
    (fun counts s =>
      let dn := displayName s.shapeType
      fun n => if n = dn then counts dn + 1 else counts n)
    (fun _ => 0)

-- Print / capture ----------------------------------------------------------------

/-- The observable steps PrintManager.captureAsImage performs. -/
inductive CaptureAction where
  | loadScript : CaptureAction
  | renderCanvas : CaptureAction
  | saveImage : CaptureAction
  | logError : CaptureAction
  | fallbackAlert : CaptureAction
  deriving DecidableEq, Repr

/-- PrintManager.captureAsImage: inside one try block, load html2canvas if not
already present, render the card, and save the blob; any throw from the load
or the render is caught once, logged to the console, and answered with the
fallback-instructions alert.  Nothing is retried. -/
def captureAsImage (alreadyLoaded loadOk renderOk : Bool) : List CaptureAction :=
  if alreadyLoaded then
    if renderOk then [.renderCanvas, .saveImage]
    else [.renderCanvas, .logError, .fallbackAlert]
  else if loadOk then
    if renderOk then [.loadScript, .renderCanvas, .saveImage]
    else [.loadScript, .renderCanvas, .logError, .fallbackAlert]
  else [.loadScript, .logError, .fallbackAlert]

-- Sample data used by witnesses and counterexamples ------------------------------

/-- A DOM with a single square palette item carrying a `.shape-svg` child. -/
def sampleEnv : DomEnv := ⟨[⟨"square", some "<rect/>"⟩]⟩

/-- The shape ShapeFactory.create produces from `sampleEnv` at (15, 0) in a
95px-wide container. -/
def sampleCreatedShape : Shape :=
  ⟨"s1", "square", 20, 0, none, none, none, .empty, "<rect/>"⟩

-- Further snapping lemmas --------------------------------------------------------

lemma sub_ten_lt_snapToGrid (v : ℚ) : v - 10 < (snapToGrid v : ℚ) := by
  have h := abs_snapToGrid_sub_le v
  rw [abs_le] at h
  have h2 : v / 20 - 1/2 < (jsRound (v / 20) : ℚ) := lt_jsRound _
  have hs : (snapToGrid v : ℚ) = (jsRound (v / 20) : ℚ) * 20 := by
    simp [snapToGrid, GRID_SIZE]
  nlinarith

lemma snapToGrid_of_dvd (n : ℤ) (h : GRID_SIZE ∣ n) : snapToGrid (n : ℚ) = n := by
  obtain ⟨k, rfl⟩ := h
  have : ((GRID_SIZE * k : ℤ) : ℚ) = (k : ℚ) * 20 := by
    push_cast [GRID_SIZE]
    ring
  rw [this, snapToGrid_intCast_mul]
  simp [GRID_SIZE]
  ring

/-- C2: Utils.snapToGrid returns the multiple of GRID_SIZE = 20 nearest to its
argument: it is divisible by 20, within 10 of the input, idempotent, and no
other multiple of 20 is strictly closer. -/
theorem C2_snapToGrid_nearest (v : ℚ) :
    GRID_SIZE ∣ snapToGrid v ∧
    |(snapToGrid v : ℚ) - v| ≤ 10 ∧
    snapToGrid ((snapToGrid v : ℤ) : ℚ) = snapToGrid v ∧
    ∀ m : ℤ, GRID_SIZE ∣ m → |(snapToGrid v : ℚ) - v| ≤ |(m : ℚ) - v| := by
  refine ⟨snapToGrid_dvd v, abs_snapToGrid_sub_le v, snapToGrid_idem v, ?_⟩
  intro m hm
  by_cases hms : m = snapToGrid v
  · subst hms
    exact le_rfl
  · have hdvd : GRID_SIZE ∣ (m - snapToGrid v) := dvd_sub hm (snapToGrid_dvd v)
    have hne : m - snapToGrid v ≠ 0 := fun h => hms (by omega)
    have hpos : 0 < |m - snapToGrid v| := abs_pos.mpr hne
    have h20 : GRID_SIZE ≤ |m - snapToGrid v| :=
      Int.le_of_dvd hpos ((dvd_abs _ _).mpr hdvd)
    have h20' : (20 : ℚ) ≤ |(m : ℚ) - (snapToGrid v : ℚ)| := by
      have hcast : ((|m - snapToGrid v| : ℤ) : ℚ) = |(m : ℚ) - (snapToGrid v : ℚ)| := by
        push_cast
        rfl
      rw [← hcast]
      exact_mod_cast (by simpa [GRID_SIZE] using h20)
    have hsnap := abs_snapToGrid_sub_le v
    have htri : |(m : ℚ) - (snapToGrid v : ℚ)| ≤ |(m : ℚ) - v| + |(snapToGrid v : ℚ) - v| := by
      have h := abs_sub_le (m : ℚ) v ((snapToGrid v : ℤ) : ℚ)
      rw [abs_sub_comm v ((snapToGrid v : ℤ) : ℚ)] at h
      exact h
    linarith

/-- Witness for C2 at v = 7 and the concrete competing multiple m = 20. -/
theorem C2_snapToGrid_nearest_witness :
    GRID_SIZE ∣ snapToGrid 7 ∧ |(snapToGrid 7 : ℚ) - 7| ≤ |((20 : ℤ) : ℚ) - 7| :=
  ⟨(C2_snapToGrid_nearest 7).1, (C2_snapToGrid_nearest 7).2.2.2 20 (by decide)⟩

-- C1: position invariant under place and move ------------------------------------

lemma getDefinition_width (env : DomEnv) (t : String) (d : ShapeDef)
    (h : getDefinition env t = some d) : d.width = (shapeSizeOrDefault t).width := by
  unfold getDefinition at h
  split at h
  · exact absurd h (by simp)
  · split at h
    · exact absurd h (by simp)
    · simp only [Option.some.injEq] at h
      rw [← h]

/-- C1 counterexample: in a 95px-wide container a square (width 80) created at
x = 15 is clamped to 15 and then snapped to 20, which exceeds
containerWidth - shapeWidth = 15; the claimed bound x ≤ containerWidth -
shapeWidth fails for ShapeFactory.create (clamp before snap). -/
theorem C1_counterexample :
    (ShapeFactory_create sampleEnv "square" 15 0 95 "s1").map Shape.left = some 20 ∧
    ¬ ((20 : ℤ) ≤ 95 - 80) := by
  constructor
  · norm_num [ShapeFactory_create, getDefinition, queryPalette, sampleEnv,
      shapeSizeOrDefault, SHAPE_SIZES, snapToGrid, jsRound, GRID_SIZE, List.find?]
  · decide

/-- C1 (amended): placement and movement keep positions on the grid up to the
clamp: ShapeFactory.create (clamp then snap) yields x, y multiples of 20 with
x ≥ 0, y ≥ 0 and x ≤ max 0 (containerWidth - width) + 10 — snapping can
overshoot the clamp bound by at most half a grid step; ShapeController.handleMove
(snap then clamp) yields 0 ≤ x ≤ max 0 (containerWidth - width) where x is a
multiple of 20 unless it was clamped to the bound containerWidth - width, and
y ≥ 0 a multiple of 20. -/
theorem C1_position_invariant :
    (∀ (env : DomEnv) (t : String) (x y : ℚ) (cw : ℤ) (id : String) (sh : Shape),
      ShapeFactory_create env t x y cw id = some sh →
        GRID_SIZE ∣ sh.left ∧ 0 ≤ sh.left ∧
        (sh.left : ℚ) ≤ max 0 ((cw : ℚ) - ((shapeSizeOrDefault t).width : ℚ)) + 10 ∧
        GRID_SIZE ∣ sh.top ∧ 0 ≤ sh.top) ∧
    (∀ (ix iy : ℤ) (dx dy : ℚ) (cw : ℤ) (size : ShapeSize) (p : ℤ × ℤ),
      handleMove ix iy dx dy cw size = some p →
        0 ≤ p.1 ∧ p.1 ≤ max 0 (cw - size.width) ∧
        (GRID_SIZE ∣ p.1 ∨ p.1 = cw - size.width) ∧
        GRID_SIZE ∣ p.2 ∧ 0 ≤ p.2) := by
  constructor
  · intro env t x y cw id sh h
    have hw : ∃ d, getDefinition env t = some d := by
      unfold ShapeFactory_create at h
      rcases hg : getDefinition env t with _ | d
      · rw [hg] at h
        exact absurd h (by simp)
      · exact ⟨d, rfl⟩
    obtain ⟨d, hd⟩ := hw
    have hdw := getDefinition_width env t d hd
    unfold ShapeFactory_create at h
    rw [hd] at h
    simp only [Option.some.injEq] at h
    subst h
    simp only
    refine ⟨snapToGrid_dvd _, ?_, ?_, snapToGrid_dvd _, ?_⟩
    · exact snapToGrid_nonneg _ (le_max_left _ _)
    · have hb : max 0 (min x ((cw : ℚ) - (d.width : ℚ))) ≤
          max 0 ((cw : ℚ) - ((shapeSizeOrDefault t).width : ℚ)) := by
        rw [hdw]
        exact max_le_max le_rfl (min_le_right _ _)
      have := snapToGrid_le_add_ten (max 0 (min x ((cw : ℚ) - (d.width : ℚ))))
      linarith
    · exact snapToGrid_nonneg _ (le_max_left _ _)
  · intro ix iy dx dy cw size p h
    unfold handleMove at h
    by_cases hth : |dx| > DRAG_THRESHOLD ∨ |dy| > DRAG_THRESHOLD
    · rw [if_pos hth] at h
      simp only [Option.some.injEq] at h
      subst h
      simp only
      refine ⟨le_max_left _ _, ?_, ?_, ?_, le_max_left _ _⟩
      · exact max_le (le_max_left _ _)
          (le_trans (min_le_right _ _) (le_max_right _ _))
      · rcases le_total (snapToGrid ((ix : ℚ) + dx)) (cw - size.width) with hle | hle
        · rw [min_eq_left hle]
          rcases le_total 0 (snapToGrid ((ix : ℚ) + dx)) with h0 | h0
          · rw [max_eq_right h0]
            exact Or.inl (snapToGrid_dvd _)
          · rw [max_eq_left h0]
            exact Or.inl ⟨0, by ring⟩
        · rw [min_eq_right hle]
          rcases le_total 0 (cw - size.width) with h0 | h0
          · rw [max_eq_right h0]
            exact Or.inr rfl
          · rw [max_eq_left h0]
            exact Or.inl ⟨0, by ring⟩
      · rcases le_total 0 (snapToGrid ((iy : ℚ) + dy)) with h0 | h0
        · rw [max_eq_right h0]
          exact snapToGrid_dvd _
        · rw [max_eq_left h0]
          exact ⟨0, by ring⟩
    · rw [if_neg hth] at h
      exact absurd h (by simp)

/-- Witness for C1: the create part at the counterexample input and the move
part at a small concrete drag. -/
theorem C1_position_invariant_witness :
    (GRID_SIZE ∣ sampleCreatedShape.left ∧ 0 ≤ sampleCreatedShape.left ∧
      (sampleCreatedShape.left : ℚ) ≤
        max 0 ((95 : ℚ) - ((shapeSizeOrDefault "square").width : ℚ)) + 10 ∧
      GRID_SIZE ∣ sampleCreatedShape.top ∧ 0 ≤ sampleCreatedShape.top) ∧
    (0 ≤ ((0 : ℤ), (0 : ℤ)).1 ∧ ((0 : ℤ), (0 : ℤ)).1 ≤ max 0 (95 - (⟨80, 80⟩ : ShapeSize).width) ∧
      (GRID_SIZE ∣ ((0 : ℤ), (0 : ℤ)).1 ∨ ((0 : ℤ), (0 : ℤ)).1 = 95 - (⟨80, 80⟩ : ShapeSize).width) ∧
      GRID_SIZE ∣ ((0 : ℤ), (0 : ℤ)).2 ∧ 0 ≤ ((0 : ℤ), (0 : ℤ)).2) :=
  ⟨C1_position_invariant.1 sampleEnv "square" 15 0 95 "s1" sampleCreatedShape
    (by norm_num [ShapeFactory_create, getDefinition, queryPalette, sampleEnv,
      shapeSizeOrDefault, SHAPE_SIZES, snapToGrid, jsRound, GRID_SIZE, List.find?,
      sampleCreatedShape]),
   C1_position_invariant.2 0 0 7 0 95 ⟨80, 80⟩ ((0 : ℤ), (0 : ℤ))
    (by norm_num [handleMove, DRAG_THRESHOLD, snapToGrid, jsRound, GRID_SIZE])⟩

-- C3: tap-to-add placement ---------------------------------------------------------

/-- C3 counterexample: a tap with the admissible random offset 19 on a square
in a 240px-wide area places the shape at x = snap(80 + 19) = 100, which is 20px
from the center x = 80 — more than the 10px grid-snapping tolerance, so the
placed position is not the center of the build area up to grid snapping. -/
theorem C3_counterexample :
    ((-20 : ℚ) ≤ 19 ∧ (19 : ℚ) < 20) ∧
    (handleTapToAdd sampleEnv [] true "square" 240 240 400 19 0 "s1").1.map Shape.left
      = [100] ∧
    ¬ |(100 : ℚ) - ((240 : ℚ) / 2 - ((shapeSizeOrDefault "square").width : ℚ) / 2)| ≤ 10 ∧
    ¬ (100 : ℤ) = snapToGrid ((240 : ℚ) / 2 - ((shapeSizeOrDefault "square").width : ℚ) / 2) := by
  refine ⟨by norm_num, ?_, ?_, ?_⟩
  · norm_num [handleTapToAdd, createShapeOp, ShapeFactory_create, getDefinition,
      queryPalette, sampleEnv, shapeSizeOrDefault, SHAPE_SIZES, snapToGrid, jsRound,
      GRID_SIZE, List.find?]
    rw [if_neg (by decide : ¬ ("square" = ""))]
    rfl
  · norm_num [shapeSizeOrDefault, SHAPE_SIZES]
  · norm_num [shapeSizeOrDefault, SHAPE_SIZES, snapToGrid, jsRound, GRID_SIZE]

/-- C3 (amended): a tap on a palette item whose definition resolves places
exactly one shape of that type (appended to the build area, with one
'shapeAdded' event); its position is the area center plus the per-axis random
offset in [-20, 20), snapped to the grid — within 30px of the center whenever
the snapped position lies inside the clamping bounds. -/
theorem C3_tap_adds_one_shape (env : DomEnv) (st : List Shape) (t : String)
    (areaW areaH offX offY : ℚ) (cw : ℤ) (id : String) (d : ShapeDef)
    (hd : getDefinition env t = some d) (ht : t ≠ "")
    (h1 : -20 ≤ offX) (h2 : offX < 20) :
    ∃ sh : Shape,
      handleTapToAdd env st true t areaW areaH cw offX offY id
        = (st ++ [sh], ["shapeAdded"]) ∧
      sh.shapeType = t ∧
      (0 ≤ snapToGrid (areaW / 2 - ((shapeSizeOrDefault t).width : ℚ) / 2 + offX) →
        snapToGrid (areaW / 2 - ((shapeSizeOrDefault t).width : ℚ) / 2 + offX) ≤
          cw - (shapeSizeOrDefault t).width →
        |(sh.left : ℚ) - (areaW / 2 - ((shapeSizeOrDefault t).width : ℚ) / 2)| < 30) := by
  have hdw := getDefinition_width env t d hd
  unfold handleTapToAdd
  rw [if_neg (by simp [ht])]
  unfold createShapeOp ShapeFactory_create
  rw [hd]
  refine ⟨_, rfl, rfl, ?_⟩
  intro hlo hhi
  dsimp only
  have hfix :
      snapToGrid (max 0 (min
          ((snapToGrid (areaW / 2 - ((shapeSizeOrDefault t).width : ℚ) / 2 + offX) : ℤ) : ℚ)
          ((cw : ℚ) - (d.width : ℚ))))
        = snapToGrid (areaW / 2 - ((shapeSizeOrDefault t).width : ℚ) / 2 + offX) := by
    have hmin : min
        ((snapToGrid (areaW / 2 - ((shapeSizeOrDefault t).width : ℚ) / 2 + offX) : ℤ) : ℚ)
        ((cw : ℚ) - (d.width : ℚ))
        = ((snapToGrid (areaW / 2 - ((shapeSizeOrDefault t).width : ℚ) / 2 + offX) : ℤ) : ℚ) := by
      refine min_eq_left ?_
      rw [hdw]
      have : ((shapeSizeOrDefault t).width : ℚ) = (((shapeSizeOrDefault t).width : ℤ) : ℚ) := rfl
      exact_mod_cast (by omega : (snapToGrid (areaW / 2 - ((shapeSizeOrDefault t).width : ℚ) / 2 + offX)) ≤ cw - (shapeSizeOrDefault t).width)
    have hmax : max 0
        ((snapToGrid (areaW / 2 - ((shapeSizeOrDefault t).width : ℚ) / 2 + offX) : ℤ) : ℚ)
        = ((snapToGrid (areaW / 2 - ((shapeSizeOrDefault t).width : ℚ) / 2 + offX) : ℤ) : ℚ) := by
      refine max_eq_right ?_
      exact_mod_cast hlo
    rw [hmin, hmax, snapToGrid_idem]
  rw [hfix]
  have hup := snapToGrid_le_add_ten (areaW / 2 - ((shapeSizeOrDefault t).width : ℚ) / 2 + offX)
  have hdn := sub_ten_lt_snapToGrid (areaW / 2 - ((shapeSizeOrDefault t).width : ℚ) / 2 + offX)
  rw [abs_lt]
  constructor <;> linarith

/-- Witness for C3 (amended): tapping a square with zero random offset in a
240px-wide area and 400px-wide container. -/
theorem C3_tap_adds_one_shape_witness :
    ∃ sh : Shape,
      handleTapToAdd sampleEnv [] true "square" 240 240 400 0 0 "s1"
        = ([] ++ [sh], ["shapeAdded"]) ∧
      sh.shapeType = "square" ∧
      (0 ≤ snapToGrid (240 / 2 - ((shapeSizeOrDefault "square").width : ℚ) / 2 + 0) →
        snapToGrid (240 / 2 - ((shapeSizeOrDefault "square").width : ℚ) / 2 + 0) ≤
          400 - (shapeSizeOrDefault "square").width →
        |(sh.left : ℚ) - (240 / 2 - ((shapeSizeOrDefault "square").width : ℚ) / 2)| < 30) :=
  C3_tap_adds_one_shape sampleEnv [] "square" 240 240 0 0 400 "s1" ⟨"<rect/>", 80, 80⟩
    (by norm_num [getDefinition, queryPalette, sampleEnv, shapeSizeOrDefault,
      SHAPE_SIZES, List.find?])
    (by decide) (by norm_num) (by norm_num)

-- C4: touch drag vs tap ------------------------------------------------------------

lemma touchIsDrag_foldl (start : TouchPoint) (b : Bool) (moves : List TouchPoint) :
    moves.foldl (touchMoveStep start) b
      = (b || moves.any fun m =>
          decide (|m.x - start.x| > DRAG_THRESHOLD)
            || decide (|m.y - start.y| > DRAG_THRESHOLD)) := by
  induction moves generalizing b with
  | nil => simp
  | cons m tl ih =>
    rw [List.foldl_cons, ih]
    unfold touchMoveStep
    by_cases hm : |m.x - start.x| > DRAG_THRESHOLD ∨ |m.y - start.y| > DRAG_THRESHOLD
    · rw [if_pos hm]
      rcases hm with hm | hm <;> simp [hm]
    · rw [if_neg hm]
      push_neg at hm
      simp [List.any_cons, not_lt.mpr hm.1, not_lt.mpr hm.2]

lemma touchIsDrag_spec (start : TouchPoint) (moves : List TouchPoint) :
    touchIsDrag start moves = true ↔
      ∃ m ∈ moves, |m.x - start.x| > DRAG_THRESHOLD ∨ |m.y - start.y| > DRAG_THRESHOLD := by
  unfold touchIsDrag
  rw [touchIsDrag_foldl]
  simp

/-- C4: a touch gesture on a palette item is classified as a drag iff some
touchmove exceeded DRAG_THRESHOLD = 5 on either axis; a drag ending over the
build area drops a shape at the snapped, shape-centered touch point, and a
below-threshold gesture is handled as tap-to-add. -/
theorem C4_touch_drag_dispatch (shapeType : String) (start : TouchPoint)
    (moves : List TouchPoint) (endTouch : TouchPoint) (rect : Rect) :
    (touchIsDrag start moves = true ↔
      ∃ m ∈ moves, |m.x - start.x| > DRAG_THRESHOLD ∨ |m.y - start.y| > DRAG_THRESHOLD) ∧
    (touchIsDrag start moves = true → isOverBuildArea endTouch rect = true →
      handleTouchEnd shapeType start moves endTouch rect
        = .dropAt shapeType
            (snapToGrid (endTouch.x - rect.left - ((shapeSizeOrDefault shapeType).width : ℚ) / 2))
            (snapToGrid (endTouch.y - rect.top - ((shapeSizeOrDefault shapeType).height : ℚ) / 2))) ∧
    (touchIsDrag start moves = false →
      handleTouchEnd shapeType start moves endTouch rect = .tapToAdd shapeType) := by
  refine ⟨touchIsDrag_spec start moves, ?_, ?_⟩
  · intro hdrag hover
    unfold handleTouchEnd
    rw [if_pos hdrag, if_pos hover]
  · intro hnot
    unfold handleTouchEnd
    rw [if_neg (by simp [hnot])]

/-- Witness for C4: a 10px horizontal move is a drag dropping on the build
area; an empty gesture is a tap-to-add. -/
theorem C4_touch_drag_dispatch_witness :
    handleTouchEnd "square" ⟨0, 0⟩ [⟨10, 0⟩] ⟨50, 50⟩ ⟨0, 0, 300, 300⟩
      = .dropAt "square"
          (snapToGrid ((50 : ℚ) - (0 : ℚ) - ((shapeSizeOrDefault "square").width : ℚ) / 2))
          (snapToGrid ((50 : ℚ) - (0 : ℚ) - ((shapeSizeOrDefault "square").height : ℚ) / 2)) ∧
    handleTouchEnd "square" ⟨0, 0⟩ [] ⟨50, 50⟩ ⟨0, 0, 300, 300⟩ = .tapToAdd "square" :=
  ⟨(C4_touch_drag_dispatch "square" ⟨0, 0⟩ [⟨10, 0⟩] ⟨50, 50⟩ ⟨0, 0, 300, 300⟩).2.1
      (by norm_num [touchIsDrag, touchMoveStep, DRAG_THRESHOLD])
      (by norm_num [isOverBuildArea]),
   (C4_touch_drag_dispatch "square" ⟨0, 0⟩ [] ⟨50, 50⟩ ⟨0, 0, 300, 300⟩).2.2 rfl⟩

-- C5: missing DOM nodes are a silent no-op -----------------------------------------

/-- C5: when the palette item for the requested type is missing, or it has no
`.shape-svg` child, getDefinition and ShapeFactory.create return null and
DragDropManager.createShape leaves the shape list unchanged and emits no
event. -/
theorem C5_missing_dom_noop (env : DomEnv) (t : String)
    (h : queryPalette env t = none ∨
      ∃ item, queryPalette env t = some item ∧ item.shapeSvg = none) :
    getDefinition env t = none ∧
    ∀ (st : List Shape) (x y : ℚ) (cw : ℤ) (id : String),
      ShapeFactory_create env t x y cw id = none ∧
      createShapeOp env st t x y cw id = (st, []) := by
  have hg : getDefinition env t = none := by
    unfold getDefinition
    rcases h with h | ⟨item, hq, hs⟩
    · simp only [h]
    · simp only [hq, hs]
  refine ⟨hg, ?_⟩
  intro st x y cw id
  have hc : ShapeFactory_create env t x y cw id = none := by
    unfold ShapeFactory_create
    simp only [hg]
  refine ⟨hc, ?_⟩
  unfold createShapeOp
  simp only [hc]

/-- Witness for C5: an empty palette. -/
theorem C5_missing_dom_noop_witness :
    getDefinition (⟨[]⟩ : DomEnv) "square" = none ∧
    ShapeFactory_create (⟨[]⟩ : DomEnv) "square" 0 0 600 "s1" = none ∧
    createShapeOp (⟨[]⟩ : DomEnv) [] "square" 0 0 600 "s1" = ([], []) :=
  ⟨(C5_missing_dom_noop (⟨[]⟩ : DomEnv) "square" (Or.inl rfl)).1,
   ((C5_missing_dom_noop (⟨[]⟩ : DomEnv) "square" (Or.inl rfl)).2 [] 0 0 600 "s1").1,
   ((C5_missing_dom_noop (⟨[]⟩ : DomEnv) "square" (Or.inl rfl)).2 [] 0 0 600 "s1").2⟩

-- C6: rotate/flip touch only the targeted shape's rotation and flip state ----------

/-- The attributes of a shape that rotate and flip must leave untouched:
identity, type, position, and SVG content. -/
def shapeFrame (s : Shape) : String × String × ℤ × ℤ × String :=
  (s.id, s.shapeType, s.left, s.top, s.svgContent)

/-- C6: rotate and flip mutate only the targeted shape's rotation/flip
attributes and transform — its identity, type, position, and SVG content, and
every other shape, are unchanged; rotate does not touch the flip flags and
flip does not touch the rotation dataset; shapes are added to the list only by
a place action (at most one per call) and removed only by delete or
clear-all. -/
theorem C6_mutation_frame :
    (∀ s : Shape, shapeFrame (rotateShape s) = shapeFrame s ∧
      (rotateShape s).flippedH = s.flippedH ∧ (rotateShape s).flippedV = s.flippedV) ∧
    (∀ (dir : String) (s : Shape), shapeFrame (flipShape dir s) = shapeFrame s ∧
      (flipShape dir s).rotation = s.rotation) ∧
    (∀ (st : List Shape) (targetId dir : String),
      (rotateOp st targetId).map shapeFrame = st.map shapeFrame ∧
      (flipOp st targetId dir).map shapeFrame = st.map shapeFrame) ∧
    (∀ (st : List Shape) (targetId dir : String) (s : Shape),
      s ∈ st → s.id ≠ targetId → s ∈ rotateOp st targetId ∧ s ∈ flipOp st targetId dir) ∧
    (∀ (st : List Shape) (targetId : String) (s : Shape),
      s ∈ deleteOp st targetId → s ∈ st) ∧
    (∀ st : List Shape, clearAllOp st = []) ∧
    (∀ (env : DomEnv) (st : List Shape) (t : String) (x y : ℚ) (cw : ℤ) (id : String),
      placeOp env st t x y cw id = st ∨
        ∃ sh, placeOp env st t x y cw id = st ++ [sh]) := by
  have hrot : ∀ s : Shape, shapeFrame (rotateShape s) = shapeFrame s ∧
      (rotateShape s).flippedH = s.flippedH ∧ (rotateShape s).flippedV = s.flippedV := by
    intro s
    exact ⟨rfl, rfl, rfl⟩
  have hflip : ∀ (dir : String) (s : Shape), shapeFrame (flipShape dir s) = shapeFrame s ∧
      (flipShape dir s).rotation = s.rotation := by
    intro dir s
    unfold flipShape
    split_ifs <;> exact ⟨rfl, rfl⟩
  refine ⟨hrot, hflip, ?_, ?_, ?_, fun _ => rfl, ?_⟩
  · intro st targetId dir
    constructor
    · unfold rotateOp
      rw [List.map_map]
      refine List.map_congr_left ?_
      intro s _
      by_cases hs : s.id = targetId
      · simp only [Function.comp_apply, if_pos hs]
        exact (hrot s).1
      · simp only [Function.comp_apply, if_neg hs]
    · unfold flipOp
      rw [List.map_map]
      refine List.map_congr_left ?_
      intro s _
      by_cases hs : s.id = targetId
      · simp only [Function.comp_apply, if_pos hs]
        exact (hflip dir s).1
      · simp only [Function.comp_apply, if_neg hs]
  · intro st targetId dir s hs hne
    constructor
    · unfold rotateOp
      have := List.mem_map_of_mem
        (fun s : Shape => if s.id = targetId then rotateShape s else s) hs
      simpa [if_neg hne] using this
    · unfold flipOp
      have := List.mem_map_of_mem
        (fun s : Shape => if s.id = targetId then flipShape dir s else s) hs
      simpa [if_neg hne] using this
  · intro st targetId s hs
    exact List.mem_of_mem_filter hs
  · intro env st t x y cw id
    unfold placeOp createShapeOp
    rcases hc : ShapeFactory_create env t x y cw id with _ | sh
    · left
      simp only
    · right
      exact ⟨sh, by simp only⟩

/-- Witness for C6: a non-targeted shape survives rotate and flip untouched. -/
theorem C6_mutation_frame_witness :
    sampleCreatedShape ∈ rotateOp [sampleCreatedShape] "other" ∧
    sampleCreatedShape ∈ flipOp [sampleCreatedShape] "other" "horizontal" :=
  C6_mutation_frame.2.2.2.1 [sampleCreatedShape] "other" "horizontal" sampleCreatedShape
    (by simp) (by decide)

-- C7: rotation cycles through 0/90/180/270 -----------------------------------------

/-- The rotation state `parseInt(dataset.rotation || '0')` reads. -/
def rotVal (s : Shape) : ℤ := s.rotation.getD 0

lemma rotVal_rotateShape (s : Shape) : rotVal (rotateShape s) = (rotVal s + 90) % 360 := by
  simp [rotVal, rotateShape]

/-- C7: a freshly created shape has rotation state 0; each rotate maps the
state r to (r + 90) mod 360; the state stays in {0, 90, 180, 270} and four
consecutive rotates restore it. -/
theorem C7_rotation_cycle :
    (∀ (env : DomEnv) (t : String) (x y : ℚ) (cw : ℤ) (id : String) (sh : Shape),
      ShapeFactory_create env t x y cw id = some sh → rotVal sh = 0) ∧
    (∀ s : Shape, rotVal (rotateShape s) = (rotVal s + 90) % 360) ∧
    (∀ s : Shape, rotVal s ∈ ({0, 90, 180, 270} : Set ℤ) →
      rotVal (rotateShape s) ∈ ({0, 90, 180, 270} : Set ℤ) ∧
      rotVal (rotateShape (rotateShape (rotateShape (rotateShape s)))) = rotVal s) := by
  refine ⟨?_, rotVal_rotateShape, ?_⟩
  · intro env t x y cw id sh h
    unfold ShapeFactory_create at h
    split at h
    · exact absurd h (by simp)
    · simp only [Option.some.injEq] at h
      subst h
      rfl
  · intro s hs
    simp only [Set.mem_insert_iff, Set.mem_singleton_iff] at hs ⊢
    simp only [rotVal_rotateShape]
    rcases hs with h | h | h | h <;> rw [h] <;> exact ⟨by decide, by decide⟩

/-- Witness for C7 at the freshly created sample shape. -/
theorem C7_rotation_cycle_witness :
    rotVal sampleCreatedShape = 0 ∧
    rotVal (rotateShape sampleCreatedShape) ∈ ({0, 90, 180, 270} : Set ℤ) ∧
    rotVal (rotateShape (rotateShape (rotateShape (rotateShape sampleCreatedShape))))
      = rotVal sampleCreatedShape :=
  ⟨C7_rotation_cycle.1 sampleEnv "square" 15 0 95 "s1" sampleCreatedShape
      (by norm_num [ShapeFactory_create, getDefinition, queryPalette, sampleEnv,
        shapeSizeOrDefault, SHAPE_SIZES, snapToGrid, jsRound, GRID_SIZE, List.find?,
        sampleCreatedShape]),
   (C7_rotation_cycle.2.2 sampleCreatedShape (by simp [rotVal, sampleCreatedShape])).1,
   (C7_rotation_cycle.2.2 sampleCreatedShape (by simp [rotVal, sampleCreatedShape])).2⟩

-- C8: flip is an involution commuting with the stored rotation ---------------------

lemma scaleOf_fst_ne_zero (t : Transform) : (scaleOf t).1 ≠ 0 := by
  cases t with
  | empty => norm_num [scaleOf]
  | rot d => norm_num [scaleOf]
  | rotScale d sx sy =>
    simp only [scaleOf]
    split_ifs with h
    · norm_num
    · simpa using h

lemma scaleOf_snd_ne_zero (t : Transform) : (scaleOf t).2 ≠ 0 := by
  cases t with
  | empty => norm_num [scaleOf]
  | rot d => norm_num [scaleOf]
  | rotScale d sx sy =>
    simp only [scaleOf]
    split_ifs with h1 h2 <;> first | assumption | norm_num

lemma scaleOf_rotScale_of_ne (d : ℤ) (sx sy : ℚ) (hx : sx ≠ 0) (hy : sy ≠ 0) :
    scaleOf (.rotScale d sx sy) = (sx, sy) := by
  simp [scaleOf, hx, hy]

lemma flipShape_h_transform (s : Shape) :
    (flipShape "horizontal" s).transform =
      .rotScale (rotationOf s.transform)
        (-(scaleOf s.transform).1) (scaleOf s.transform).2 := by
  unfold flipShape
  rw [if_pos rfl]

lemma flipShape_v_transform (s : Shape) :
    (flipShape "vertical" s).transform =
      .rotScale (rotationOf s.transform)
        (scaleOf s.transform).1 (-(scaleOf s.transform).2) := by
  unfold flipShape
  rw [if_neg (by decide), if_pos rfl]

/-- C8: for both flip directions, flipping twice restores the transform's
scale component, and each flip preserves the transform's rotation component. -/
theorem C8_flip_involution (s : Shape) :
    scaleOf (flipShape "horizontal" (flipShape "horizontal" s)).transform
      = scaleOf s.transform ∧
    scaleOf (flipShape "vertical" (flipShape "vertical" s)).transform
      = scaleOf s.transform ∧
    rotationOf (flipShape "horizontal" s).transform = rotationOf s.transform ∧
    rotationOf (flipShape "vertical" s).transform = rotationOf s.transform := by
  have hx := scaleOf_fst_ne_zero s.transform
  have hy := scaleOf_snd_ne_zero s.transform
  refine ⟨?_, ?_, ?_, ?_⟩
  · rw [flipShape_h_transform, flipShape_h_transform,
      scaleOf_rotScale_of_ne _ _ _ (neg_ne_zero.mpr hx) hy]
    simp only [rotationOf, neg_neg]
    rw [scaleOf_rotScale_of_ne _ _ _ hx hy]
  · rw [flipShape_v_transform, flipShape_v_transform,
      scaleOf_rotScale_of_ne _ _ _ hx (neg_ne_zero.mpr hy)]
    simp only [rotationOf, neg_neg]
    rw [scaleOf_rotScale_of_ne _ _ _ hx hy]
  · rw [flipShape_h_transform]
    rfl
  · rw [flipShape_v_transform]
    rfl

-- C9: supply-list counts -----------------------------------------------------------

lemma countShapes_foldl (shapes : List Shape) (counts : String → ℕ) (name : String) :
    (shapes.foldl
      (fun counts s =>
        let dn := displayName s.shapeType
        fun n => if n = dn then counts dn + 1 else counts n)
      counts) name
      = counts name + (shapes.filter (fun s => displayName s.shapeType = name)).length := by
  induction shapes generalizing counts with
  | nil => simp
  | cons s tl ih =>
    rw [List.foldl_cons, ih, List.filter_cons]
    by_cases h : displayName s.shapeType = name
    · simp [h]
      omega
    · have h' : ¬ name = displayName s.shapeType := fun he => h he.symm
      simp [h, h']

/-- C9: the supply count of each display name is the number of placed shapes
whose type maps to it under SHAPE_NAMES; both barrel types aggregate under
'Barrel', and a type outside SHAPE_NAMES is counted under 'Unknown'. -/
theorem C9_supply_counts (shapes : List Shape) (name : String) :
    countShapes shapes name
      = (shapes.filter (fun s => displayName s.shapeType = name)).length ∧
    displayName "barrel-cylinder" = "Barrel" ∧
    displayName "barrel-circle" = "Barrel" ∧
    ∀ t : String, SHAPE_NAMES t = none → displayName t = "Unknown" := by
  refine ⟨?_, by decide, by decide, ?_⟩
  · unfold countShapes
    rw [countShapes_foldl]
    omega
  · intro t h
    simp [displayName, h]

/-- Witness for C9: a type with no SHAPE_NAMES entry counts as 'Unknown'. -/
theorem C9_supply_counts_witness : displayName "dynamite" = "Unknown" :=
  (C9_supply_counts [] "Barrel").2.2.2 "dynamite" (by decide)

-- C10: failed capture shows the fallback exactly once ------------------------------

/-- C10: capture performs the load and the render at most once each; on the
success path no fallback is shown, and on any failing path (load throws, or
render throws) the console error and the fallback-instructions alert appear
exactly once, with no retry and no saved image. -/
theorem C10_capture_failure_fallback (alreadyLoaded loadOk renderOk : Bool) :
    ((captureAsImage alreadyLoaded loadOk renderOk).count .fallbackAlert
      = if (alreadyLoaded || loadOk) && renderOk then 0 else 1) ∧
    (captureAsImage alreadyLoaded loadOk renderOk).count .renderCanvas ≤ 1 ∧
    (captureAsImage alreadyLoaded loadOk renderOk).count .loadScript ≤ 1 ∧
    ((captureAsImage alreadyLoaded loadOk renderOk).count .logError
      = (captureAsImage alreadyLoaded loadOk renderOk).count .fallbackAlert) ∧
    (CaptureAction.saveImage ∈ captureAsImage alreadyLoaded loadOk renderOk
      ↔ ((alreadyLoaded || loadOk) && renderOk) = true) := by
  cases alreadyLoaded <;> cases loadOk <;> cases renderOk <;> decide

end BuildOrBoom
